import Mathlib

/-!
Verification of the serial-terminal session core (`src/main.rs`).

The program bridges an operator's keyboard and a serial device:

* a keyboard thread sends each `Key` into an mpsc channel (the Event Funnel);
* a device-reader thread polls a separately opened handle (`port_clone`) for up
  to 1024 bytes and sends each received byte as `Key::Char(byte as char)` into
  the same channel;
* the main loop (the Session Dispatcher) consumes the channel, holding a
  mutable `command_mode : bool` and the write-capable handle `port`.

The embedding below models the dispatcher as a pure step function over an
explicit state, with the environment's responses (the line read at the baud
prompt, whether the reopen succeeds, whether `write_all` succeeds) passed in
as an `Env` record, and the observable effects (display text, bytes handed to
`write_all`, the baud of the handle used for the write, loop exit) returned
as an `Output` record.
-/

/-- A serial-port handle, identified by device name and baud rate
(`serialport::new(port_name, baud).open()`). -/
structure PortHandle where
  name : String
  baud : Nat
  deriving DecidableEq, Repr

/-- The events travelling through the mpsc channel.  `termion::event::Key` has
many variants; the dispatcher distinguishes only `Char` and the two control
keys `Ctrl('x')` / `Ctrl('t')`, so every remaining variant (arrows, function
keys, Alt-combinations, …) is folded into `special`. -/
inductive Key where
  | char (c : Char)
  | ctrl (c : Char)
  | special (n : Nat)
  deriving DecidableEq, Repr

/-- The device-reader thread sends each received byte `b` as
`Key::Char(buffer[i] as char)` (main.rs line 153); `u8 as char` is the
codepoint embedding of the byte. -/
def deviceByteEvent (b : Nat) : Key :=
  Key.char (Char.ofNat b)

/-- Dispatcher state: the `command_mode` boolean (main.rs line 168) and the
write-capable port handle `port` (reassigned on a successful baud change). -/
structure DispatcherState where
  commandMode : Bool
  port : PortHandle
  deriving DecidableEq, Repr

/-- Environment responses consumed by one dispatcher step: the line typed at
the `Enter new baud rate:` prompt, whether reopening the port at the new baud
succeeds (and the error text if not), and whether `port.write_all` succeeds
(and the error text if not). -/
structure Env where
  baudInput : String
  openOk : Bool
  openErrMsg : String
  writeOk : Bool
  writeErrMsg : String
  deriving DecidableEq, Repr

/-- Observable effects of one dispatcher step: the text written to the display
(stdout), the bytes handed to `port.write_all`, the baud rate of the handle
used for that write (if any write was attempted), and whether the main loop
breaks. -/
structure Output where
  display : String
  device : List Nat
  baudUsed : Option Nat
  exit : Bool
  deriving DecidableEq, Repr

/-- Rust's `char::is_whitespace` (the Unicode `White_Space` property), used
by `str::trim`. -/
def rustIsWhitespace (c : Char) : Bool :=
  [0x09, 0x0A, 0x0B, 0x0C, 0x0D, 0x20, 0x85, 0xA0, 0x1680,
    0x2028, 0x2029, 0x202F, 0x205F, 0x3000].contains c.toNat
  || (0x2000 ≤ c.toNat && c.toNat ≤ 0x200A)

/-- Rust's `str::trim`: strip `White_Space` characters from both ends. -/
def rustTrim (s : String) : String :=
  ⟨((s.data.dropWhile rustIsWhitespace).reverse.dropWhile rustIsWhitespace).reverse⟩

/-- Rust's `str::parse` for an unsigned integer type with exclusive upper
bound `bound`: an optional leading `+`, then one or more ASCII digits, and
the value must fit (overflow is a parse error). -/
def parseUnsigned (bound : Nat) (s : String) : Option Nat :=
  let l := match s.data with
    | '+' :: rest => rest
    | l => l
  if l ≠ [] ∧ l.all Char.isDigit then
    let v := l.foldl (fun acc c => acc * 10 + (c.toNat - 48)) 0
    if v < bound then some v else none
  else none

/-- `baud_input.trim().parse::<u32>()` (main.rs line 192). -/
def parseU32 (s : String) : Option Nat :=
  parseUnsigned (2 ^ 32) s

/-- `input.trim().parse::<usize>()` (main.rs line 73), on a 64-bit target. -/
def parseUsize (s : String) : Option Nat :=
  parseUnsigned (2 ^ 64) s

/-- The command-mode match (main.rs lines 185-213): `'b'` prompts for and
parses a new baud rate, reopens the port (keeping the old handle on failure),
`'c'` emits the clear-and-home escape sequences, and anything else reports an
unknown command.  Returns the (possibly replaced) port handle and the display
text written by the command branch itself. -/
def commandAction (portName : String) (port : PortHandle) (key : Key) (env : Env) :
    PortHandle × String :=
  match key with
  | Key.char c =>
    if c = 'b' then
      match parseU32 (rustTrim env.baudInput) with
      | some newBaud =>
        let msg := "\r\nEnter new baud rate: " ++ "\r\nChanging baud rate to "
          ++ toString newBaud ++ "\r\n"
        if env.openOk then
          (⟨portName, newBaud⟩, msg)
        else
          (port, msg ++ "\r\nFailed to change baud rate: " ++ env.openErrMsg ++ "\r\n")
      | none =>
        (port, "\r\nEnter new baud rate: " ++ "\r\nInvalid baud rate\r\n")
    else if c = 'c' then
      (port, "\x1B[2J\x1B[1;1H")
    else
      (port, "\r\nUnknown command\r\n")
  | _ => (port, "\r\nUnknown command\r\n")

/-- The normal-mode match (main.rs lines 218-230): a `Char` key is written to
the port as `c as u8` (the low 8 bits of the codepoint); on success the
character is echoed, on failure an error line is printed and nothing is
echoed; every other key does nothing. -/
def normalAction (port : PortHandle) (key : Key) (env : Env) : Output :=
  match key with
  | Key.char c =>
    if env.writeOk then
      ⟨String.singleton c, [c.toNat % 256], some port.baud, false⟩
    else
      ⟨"\r\nError writing to port: " ++ env.writeErrMsg ++ "\r\n",
        [c.toNat % 256], some port.baud, false⟩
  | _ => ⟨"", [], none, false⟩

/-- One iteration of the main loop on a received event (main.rs lines
171-238): `Ctrl('x')` prints the exit line and breaks; `Ctrl('t')` enters
command mode and prints the prompt; otherwise the event is handled by the
command-mode branch (which always resets `command_mode` to `false` and
appends the `[Terminal Mode]` epilogue) or the normal-mode branch. -/
def dispatchStep (portName : String) (st : DispatcherState) (ev : Key) (env : Env) :
    DispatcherState × Output :=
  if ev = Key.ctrl 'x' then
    (st, ⟨"\r\nExiting...\r\n", [], none, true⟩)
  else if ev = Key.ctrl 't' then
    ({ st with commandMode := true }, ⟨"\r\n[Command Mode] ", [], none, false⟩)
  else if st.commandMode then
    let pd := commandAction portName st.port ev env
    (⟨false, pd.1⟩, ⟨pd.2 ++ "[Terminal Mode]\r\n", [], none, false⟩)
  else
    (st, normalAction st.port ev env)

/-- One poll of the device-reader thread (main.rs lines 150-164): `Ok(count)`
with `count > 0` emits one `Key::Char` event per received byte, in buffer
order; `Ok(0)` and a timeout emit nothing; any other error emits nothing and
breaks the loop. -/
inductive ReadResult where
  | ok (bytes : List Nat)
  | timedOut
  | err (msg : String)
  deriving DecidableEq, Repr

/-- Events emitted to the channel by a single poll result. -/
def pollEvents : ReadResult → List Key
  | ReadResult.ok bytes => bytes.map deviceByteEvent
  | ReadResult.timedOut => []
  | ReadResult.err _ => []

/-- Events emitted by the reader loop over a sequence of poll results; a
non-timeout error breaks the loop (main.rs line 161). -/
def readerEmits : List ReadResult → List Key
  | [] => []
  | ReadResult.err _ :: _ => []
  | r :: rest => pollEvents r ++ readerEmits rest

/-- The whole session's mutable handles: the dispatcher's state (with the
write-capable `port`) and the reader thread's independently opened
`port_clone` (main.rs lines 137-145), which that thread only ever reads
from. -/
structure SystemState where
  disp : DispatcherState
  readPort : PortHandle
  deriving DecidableEq, Repr

/-- One system step: the dispatcher consumes one event; the reader thread's
handle is owned by that thread and never reassigned, so it is carried
through unchanged. -/
def systemStep (portName : String) (sys : SystemState) (ev : Key) (env : Env) :
    SystemState × Output :=
  let r := dispatchStep portName sys.disp ev env
  (⟨r.1, sys.readPort⟩, r.2)

/-- Running the dispatcher over a list of events with their environment
responses. -/
def systemRun (portName : String) (sys : SystemState) : List (Key × Env) → SystemState
  | [] => sys
  | (ev, env) :: rest => systemRun portName (systemStep portName sys ev env).1 rest

/-- Session start (main.rs lines 92-96, 137-145, 168): both handles open at
the selected name and baud, `command_mode = false`. -/
def initSystem (portName : String) (baud : Nat) : SystemState :=
  ⟨⟨false, ⟨portName, baud⟩⟩, ⟨portName, baud⟩⟩

/-- Port-index selection (main.rs lines 68-79): parse the trimmed line as
`usize` with fallback 0, warn when the result is out of range, then index
with `port_index.min(len - 1)`.  Returns the selected index and the warning
text printed (empty when in range). -/
def selectPort (input : String) (numPorts : Nat) : Nat × String :=
  let portIndex := (parseUsize (rustTrim input)).getD 0
  (min portIndex (numPorts - 1),
    if numPorts ≤ portIndex then "Invalid selection, using port 0.\n" else "")

/-- Helper: a byte (below 256) round-trips through `u8 as char` followed by
`char as u8`. -/
theorem charOfNat_toNat {b : Nat} (hb : b < 256) : (Char.ofNat b).toNat = b := by
  have hv : b.isValidChar := Or.inl (by omega)
  simp [Char.ofNat, hv, Char.ofNatAux, Char.toNat, UInt32.toNat, BitVec.toNat_ofNatLt]

/-- Helper: string concatenation is associative. -/
theorem string_append_assoc (a b c : String) : (a ++ b) ++ c = a ++ (b ++ c) := by
  cases a with | mk da =>
  cases b with | mk db =>
  cases c with | mk dc =>
  show String.append (String.append ⟨da⟩ ⟨db⟩) ⟨dc⟩ = String.append ⟨da⟩ (String.append ⟨db⟩ ⟨dc⟩)
  simp [String.append]

/-- Helper: the reader thread's handle is carried through every system step
unchanged. -/
theorem systemRun_readPort (portName : String) (sys : SystemState)
    (evs : List (Key × Env)) : (systemRun portName sys evs).readPort = sys.readPort := by
  induction evs generalizing sys with
  | nil => rfl
  | cons e rest ih =>
    obtain ⟨ev, env⟩ := e
    rw [systemRun, ih]
    rfl

/-- Claim C1, amended: a byte received from the device is injected into the
Event Funnel as a plain character event indistinguishable from an operator
keystroke.  It can never match the terminate or enter-command-mode control
events, but it is not displayed verbatim: in Normal mode the dispatcher
writes the byte back to the device's write handle and echoes it to the
display only if that write succeeds, and in Command mode the byte is
interpreted as a local command (device byte 0x63 executes clear-display). -/
theorem device_byte_event_handling (portName : String) (st : DispatcherState)
    (env : Env) (b : Nat) (hb : b < 256) :
    deviceByteEvent b ≠ Key.ctrl 'x' ∧ deviceByteEvent b ≠ Key.ctrl 't' ∧
    (st.commandMode = false → env.writeOk = true →
      (dispatchStep portName st (deviceByteEvent b) env).2.display
          = String.singleton (Char.ofNat b) ∧
      (dispatchStep portName st (deviceByteEvent b) env).2.device = [b]) ∧
    (st.commandMode = false → env.writeOk = false →
      (dispatchStep portName st (deviceByteEvent b) env).2.display
          = "\r\nError writing to port: " ++ env.writeErrMsg ++ "\r\n" ∧
      (dispatchStep portName st (deviceByteEvent b) env).2.device = [b]) ∧
    (st.commandMode = true → b = 99 →
      (dispatchStep portName st (deviceByteEvent b) env).2.display
          = "\x1B[2J\x1B[1;1H" ++ "[Terminal Mode]\r\n") := by
  refine ⟨by simp [deviceByteEvent], by simp [deviceByteEvent], ?_, ?_, ?_⟩
  · intro hnorm hw
    simp [dispatchStep, deviceByteEvent, normalAction, hnorm, hw, charOfNat_toNat hb,
      Nat.mod_eq_of_lt hb]
  · intro hnorm hw
    simp [dispatchStep, deviceByteEvent, normalAction, hnorm, hw, charOfNat_toNat hb,
      Nat.mod_eq_of_lt hb]
  · intro hcmd hb99
    subst hb99
    simp [dispatchStep, deviceByteEvent, commandAction, hcmd]

/-- Claim C1, counterexample: with the session in Command mode, the device
byte 0x63 (`c`) is not displayed verbatim — it is executed as the
clear-display command. -/
theorem device_byte_command_interpretation_cex :
    (dispatchStep "p" ⟨true, ⟨"p", 115200⟩⟩ (deviceByteEvent 99)
        ⟨"", true, "", true, ""⟩).2.display = "\x1B[2J\x1B[1;1H" ++ "[Terminal Mode]\r\n" ∧
    (dispatchStep "p" ⟨true, ⟨"p", 115200⟩⟩ (deviceByteEvent 99)
        ⟨"", true, "", true, ""⟩).2.display ≠ String.singleton (Char.ofNat 99) := by
  constructor
  · decide
  · decide

/-- Claim C1, witness: device byte 0x41 in Normal mode with a healthy write
is echoed and written back. -/
theorem device_byte_event_handling_witness :
    (dispatchStep "p" ⟨false, ⟨"p", 115200⟩⟩ (deviceByteEvent 65)
        ⟨"", true, "", true, ""⟩).2.display = String.singleton (Char.ofNat 65) ∧
    (dispatchStep "p" ⟨false, ⟨"p", 115200⟩⟩ (deviceByteEvent 65)
        ⟨"", true, "", true, ""⟩).2.device = [65] :=
  (device_byte_event_handling "p" ⟨false, ⟨"p", 115200⟩⟩ ⟨"", true, "", true, ""⟩ 65
    (by decide)).2.2.1 rfl rfl

/-- Claim C2: in Command mode, any event other than the terminate and
enter-command-mode keystrokes returns the machine to Normal. -/
theorem command_mode_single_event_return (portName : String) (st : DispatcherState)
    (ev : Key) (env : Env) (hcmd : st.commandMode = true)
    (hx : ev ≠ Key.ctrl 'x') (ht : ev ≠ Key.ctrl 't') :
    ((dispatchStep portName st ev env).1).commandMode = false := by
  simp [dispatchStep, hx, ht, hcmd]

/-- Claim C2, witness: the unrecognized command `z` returns the machine to
Normal. -/
theorem command_mode_single_event_return_witness :
    ((dispatchStep "p" ⟨true, ⟨"p", 115200⟩⟩ (Key.char 'z')
        ⟨"", true, "", true, ""⟩).1).commandMode = false :=
  command_mode_single_event_return "p" ⟨true, ⟨"p", 115200⟩⟩ (Key.char 'z')
    ⟨"", true, "", true, ""⟩ rfl (by decide) (by decide)

/-- Claim C3: a failed speed change (parse failure or reopen failure) reports
an error and leaves the write handle unchanged; a successful one replaces it
with a handle at the new speed; Normal-mode writes always go through the
state's current handle. -/
theorem speed_change_handle_retention (portName : String) (st : DispatcherState) (env : Env)
    (hcmd : st.commandMode = true) :
    (parseU32 (rustTrim env.baudInput) = none →
      ((dispatchStep portName st (Key.char 'b') env).1).port = st.port ∧
      (dispatchStep portName st (Key.char 'b') env).2.display =
        ("\r\nEnter new baud rate: " ++ "\r\nInvalid baud rate\r\n") ++ "[Terminal Mode]\r\n") ∧
    (∀ n, parseU32 (rustTrim env.baudInput) = some n → env.openOk = false →
      ((dispatchStep portName st (Key.char 'b') env).1).port = st.port ∧
      (dispatchStep portName st (Key.char 'b') env).2.display =
        (("\r\nEnter new baud rate: " ++ "\r\nChanging baud rate to " ++ toString n ++ "\r\n")
          ++ "\r\nFailed to change baud rate: " ++ env.openErrMsg ++ "\r\n")
          ++ "[Terminal Mode]\r\n") ∧
    (∀ n, parseU32 (rustTrim env.baudInput) = some n → env.openOk = true →
      ((dispatchStep portName st (Key.char 'b') env).1).port = ⟨portName, n⟩) ∧
    (∀ (st2 : DispatcherState) (c : Char) (env2 : Env), st2.commandMode = false →
      (dispatchStep portName st2 (Key.char c) env2).2.baudUsed = some st2.port.baud) := by
  refine ⟨?_, ?_, ?_, ?_⟩
  · intro hp
    simp [dispatchStep, commandAction, hcmd, hp]
  · intro n hp ho
    simp [dispatchStep, commandAction, hcmd, hp, ho]
  · intro n hp ho
    simp [dispatchStep, commandAction, hcmd, hp, ho]
  · intro st2 c env2 h2
    cases hw : env2.writeOk <;> simp [dispatchStep, normalAction, h2, hw]

/-- Claim C3, witness: entering `9600` with a successful reopen replaces the
write handle. -/
theorem speed_change_handle_retention_witness :
    ((dispatchStep "p" ⟨true, ⟨"p", 115200⟩⟩ (Key.char 'b')
        ⟨"9600\n", true, "", true, ""⟩).1).port = ⟨"p", 9600⟩ :=
  (speed_change_handle_retention "p" ⟨true, ⟨"p", 115200⟩⟩
    ⟨"9600\n", true, "", true, ""⟩ rfl).2.2.1 9600 (by decide) rfl

/-- Claim C4: a plain character keystroke in Normal mode is written to the
device as its byte value; it is echoed exactly once on write success, and on
write failure an error line is printed and nothing is echoed; the state is
unchanged either way. -/
theorem normal_mode_write_echo (portName : String) (st : DispatcherState) (env : Env)
    (c : Char) (hnorm : st.commandMode = false) (hc : c.toNat < 256) :
    (dispatchStep portName st (Key.char c) env).1 = st ∧
    (dispatchStep portName st (Key.char c) env).2.device = [c.toNat] ∧
    (env.writeOk = true →
      (dispatchStep portName st (Key.char c) env).2.display = String.singleton c) ∧
    (env.writeOk = false →
      (dispatchStep portName st (Key.char c) env).2.display =
        "\r\nError writing to port: " ++ env.writeErrMsg ++ "\r\n") := by
  refine ⟨?_, ?_, ?_, ?_⟩
  · cases hw : env.writeOk <;> simp [dispatchStep, normalAction, hnorm, hw]
  · cases hw : env.writeOk <;>
      simp [dispatchStep, normalAction, hnorm, hw, Nat.mod_eq_of_lt hc]
  · intro hw; simp [dispatchStep, normalAction, hnorm, hw]
  · intro hw; simp [dispatchStep, normalAction, hnorm, hw]

/-- Claim C4, witness: typing `A` in Normal mode writes byte 65 to the
device. -/
theorem normal_mode_write_echo_witness :
    (dispatchStep "p" ⟨false, ⟨"p", 115200⟩⟩ (Key.char 'A')
        ⟨"", true, "", true, ""⟩).2.device = [65] :=
  (normal_mode_write_echo "p" ⟨false, ⟨"p", 115200⟩⟩ ⟨"", true, "", true, ""⟩ 'A'
    rfl (by decide)).2.1

/-- Claim C5, amended: processing the clear-display command emits exactly the
two escape sequences `ESC [ 2 J` and `ESC [ 1 ; 1 H` followed by the
`[Terminal Mode]` epilogue that the dispatcher appends after every
command-mode event; nothing is written to the device.  The command branch
itself contributes exactly the two escape sequences. -/
theorem clear_command_output (portName : String) (st : DispatcherState) (env : Env)
    (hcmd : st.commandMode = true) :
    dispatchStep portName st (Key.char 'c') env =
      (⟨false, st.port⟩, ⟨"\x1B[2J\x1B[1;1H" ++ "[Terminal Mode]\r\n", [], none, false⟩) ∧
    (commandAction portName st.port (Key.char 'c') env).2 = "\x1B[2J\x1B[1;1H" := by
  constructor
  · simp [dispatchStep, commandAction, hcmd]
  · simp [commandAction]

/-- Claim C5, counterexample: the display output for the clear-display event
is not only the two escape sequences — the `[Terminal Mode]` epilogue is
also written. -/
theorem clear_command_epilogue_cex :
    (dispatchStep "p" ⟨true, ⟨"p", 115200⟩⟩ (Key.char 'c')
        ⟨"", true, "", true, ""⟩).2.display ≠ "\x1B[2J\x1B[1;1H" := by decide

/-- Claim C5, witness: the clear command evaluated at a concrete state. -/
theorem clear_command_output_witness :
    dispatchStep "p" ⟨true, ⟨"p", 115200⟩⟩ (Key.char 'c') ⟨"", true, "", true, ""⟩ =
      (⟨false, ⟨"p", 115200⟩⟩,
        ⟨"\x1B[2J\x1B[1;1H" ++ "[Terminal Mode]\r\n", [], none, false⟩) :=
  (clear_command_output "p" ⟨true, ⟨"p", 115200⟩⟩ ⟨"", true, "", true, ""⟩ rfl).1

/-- Claim C6: the Session Dispatcher never touches the Device Event Source's
independently opened read handle — it is unchanged, and still at the
original speed, after any event sequence (speed changes included). -/
theorem read_handle_never_touched (portName : String) (baud : Nat)
    (sys : SystemState) (evs : List (Key × Env)) :
    (systemRun portName sys evs).readPort = sys.readPort ∧
    (systemRun portName (initSystem portName baud) evs).readPort = ⟨portName, baud⟩ ∧
    (systemRun portName (initSystem portName baud) evs).readPort.baud = baud := by
  refine ⟨systemRun_readPort portName sys evs, ?_, ?_⟩
  · rw [systemRun_readPort]; rfl
  · rw [systemRun_readPort]; rfl

/-- Claim C7: a poll returning `count` bytes emits one event per byte in
buffer order; a timeout emits nothing and the loop continues polling; three
timeouts followed by byte 0x41 emit exactly one event carrying 0x41. -/
theorem reader_poll_events (bytes : List Nat) (rest : List ReadResult)
    (h : bytes.length ≤ 1024) :
    readerEmits (ReadResult.ok bytes :: rest) = bytes.map deviceByteEvent ++ readerEmits rest ∧
    readerEmits (ReadResult.timedOut :: rest) = readerEmits rest ∧
    readerEmits [ReadResult.timedOut, ReadResult.timedOut, ReadResult.timedOut,
        ReadResult.ok [0x41]] = [deviceByteEvent 0x41] := by
  refine ⟨rfl, rfl, rfl⟩

/-- Claim C7, witness: the three-timeouts-then-0x41 scenario, evaluated. -/
theorem reader_poll_events_witness :
    readerEmits [ReadResult.timedOut, ReadResult.timedOut, ReadResult.timedOut,
        ReadResult.ok [65]] = [deviceByteEvent 65] :=
  (reader_poll_events [65] [] (by decide)).2.2

/-- Claim C8: in Command mode the recognized command characters are exactly
`b` and `c` — any other character yields the unknown-command response, `c`
clears the display, and `b` starts the speed-change dialogue. -/
theorem recognized_commands_exactly_b_c (portName : String) (st : DispatcherState)
    (env : Env) (hcmd : st.commandMode = true) :
    (∀ c : Char, c ≠ 'b' → c ≠ 'c' →
      dispatchStep portName st (Key.char c) env =
        (⟨false, st.port⟩,
          ⟨"\r\nUnknown command\r\n" ++ "[Terminal Mode]\r\n", [], none, false⟩)) ∧
    dispatchStep portName st (Key.char 'c') env =
      (⟨false, st.port⟩, ⟨"\x1B[2J\x1B[1;1H" ++ "[Terminal Mode]\r\n", [], none, false⟩) ∧
    ((dispatchStep portName st (Key.char 'b') env).1).commandMode = false ∧
    (∃ s, (dispatchStep portName st (Key.char 'b') env).2.display =
      "\r\nEnter new baud rate: " ++ s) := by
  refine ⟨?_, ?_, ?_, ?_⟩
  · intro c hb hc
    simp [dispatchStep, commandAction, hcmd, hb, hc]
  · simp [dispatchStep, commandAction, hcmd]
  · simp [dispatchStep, commandAction, hcmd]
  · rcases hp : parseU32 (rustTrim env.baudInput) with _ | n
    · refine ⟨"\r\nInvalid baud rate\r\n" ++ "[Terminal Mode]\r\n", ?_⟩
      simp [dispatchStep, commandAction, hcmd, hp, string_append_assoc]
    · cases ho : env.openOk
      · refine ⟨("\r\nChanging baud rate to " ++ toString n ++ "\r\n"
          ++ "\r\nFailed to change baud rate: " ++ env.openErrMsg ++ "\r\n")
          ++ "[Terminal Mode]\r\n", ?_⟩
        simp [dispatchStep, commandAction, hcmd, hp, ho, string_append_assoc]
        rw [← string_append_assoc "\r\nEnter new baud rate: " "\r\nChanging baud rate to "]
        simp
      · refine ⟨("\r\nChanging baud rate to " ++ toString n ++ "\r\n")
          ++ "[Terminal Mode]\r\n", ?_⟩
        simp [dispatchStep, commandAction, hcmd, hp, ho, string_append_assoc]
        rw [← string_append_assoc "\r\nEnter new baud rate: " "\r\nChanging baud rate to "]
        simp

/-- Claim C8, witness: the character `z` is rejected as an unknown command. -/
theorem recognized_commands_exactly_b_c_witness :
    dispatchStep "p" ⟨true, ⟨"p", 115200⟩⟩ (Key.char 'z') ⟨"", true, "", true, ""⟩ =
      (⟨false, ⟨"p", 115200⟩⟩,
        ⟨"\r\nUnknown command\r\n" ++ "[Terminal Mode]\r\n", [], none, false⟩) :=
  (recognized_commands_exactly_b_c "p" ⟨true, ⟨"p", 115200⟩⟩
    ⟨"", true, "", true, ""⟩ rfl).1 'z' (by decide) (by decide)

/-- Claim C9: an index entry parsing to a value at or beyond the port count
prints the invalid-selection warning (which claims port 0) but selects the
highest valid index; only a parse failure falls back to index 0 (silently). -/
theorem port_selection_fallback (input : String) (numPorts : Nat) (h1 : 1 ≤ numPorts) :
    (∀ n, parseUsize (rustTrim input) = some n → numPorts ≤ n →
      selectPort input numPorts = (numPorts - 1, "Invalid selection, using port 0.\n")) ∧
    (∀ n, parseUsize (rustTrim input) = some n → numPorts ≤ n → 2 ≤ numPorts →
      (selectPort input numPorts).1 ≠ 0) ∧
    (parseUsize (rustTrim input) = none → selectPort input numPorts = (0, "")) := by
  refine ⟨?_, ?_, ?_⟩
  · intro n hp hn
    have hmin : min n (numPorts - 1) = numPorts - 1 := by omega
    simp [selectPort, hp, hn, hmin]
  · intro n hp hn h2
    have hmin : min n (numPorts - 1) = numPorts - 1 := by omega
    simp [selectPort, hp, hn, hmin]
    omega
  · intro hp
    have : ¬ (numPorts ≤ 0) := by omega
    simp [selectPort, hp, this]

/-- Claim C9, witness: entry `5` with 3 ports warns and selects index 2, the
last port. -/
theorem port_selection_fallback_witness :
    selectPort "5\n" 3 = (2, "Invalid selection, using port 0.\n") :=
  (port_selection_fallback "5\n" 3 (by decide)).1 5 (by decide) (by decide)

/-- Claim C10: in Normal mode, any keystroke event that is not a plain
character (other than the two control keystrokes handled earlier) is
discarded: state unchanged, no device write, no display output. -/
theorem normal_mode_nonchar_discarded (portName : String) (st : DispatcherState)
    (env : Env) (hnorm : st.commandMode = false) :
    (∀ c : Char, c ≠ 'x' → c ≠ 't' →
      dispatchStep portName st (Key.ctrl c) env = (st, ⟨"", [], none, false⟩)) ∧
    (∀ n : Nat, dispatchStep portName st (Key.special n) env = (st, ⟨"", [], none, false⟩)) := by
  constructor
  · intro c hx ht
    simp [dispatchStep, normalAction, hnorm, hx, ht]
  · intro n
    simp [dispatchStep, normalAction, hnorm]

/-- Claim C10, witness: `Ctrl('a')` in Normal mode does nothing. -/
theorem normal_mode_nonchar_discarded_witness :
    dispatchStep "p" ⟨false, ⟨"p", 115200⟩⟩ (Key.ctrl 'a') ⟨"", true, "", true, ""⟩ =
      (⟨false, ⟨"p", 115200⟩⟩, ⟨"", [], none, false⟩) :=
  (normal_mode_nonchar_discarded "p" ⟨false, ⟨"p", 115200⟩⟩
    ⟨"", true, "", true, ""⟩ rfl).1 'a' (by decide) (by decide)
